import Mathlib

/-!
Shallow embedding of the `glutin_x11_sym` crate (src/src/lib.rs).

The crate manages one process-wide X11 display connection. We model:

* the `Display` struct (raw handle, `latest_error: Mutex<Option<Error>>`,
  `owned` flag) — pointers become `Nat` (0 models a null pointer), the
  mutex-guarded option becomes a plain `Option`;
* `Display::new` (the singleton establishment), `Display::from_raw`
  (adoption of a foreign handle), `check_errors`, `ignore_error`, and the
  `Drop` impl;
* the `x_error_callback` error bridge;
* the `lsyms!(XLIB)` macro, which is `crate::XLIB.as_ref().unwrap()`: on a
  load failure it panics.  Panics are modelled explicitly by the
  `POutcome.panicked` constructor.

The native Xlib symbols the crate calls are abstracted as an `XlibSyms`
environment: `xOpenDisplay` is the handle `XOpenDisplay(null)` returns and
`xGetErrorText` the lossy-decoded text `XGetErrorText` writes for a given
(display pointer, error code) pair.  `Arc` identity for `from_raw` is
modelled by the `FromRawResult` type: `singletonRef` is `Arc::clone` of the
singleton (the same heap object, hence the same `latest_error` slot) and
`fresh d` a newly allocated wrapper.
-/

namespace GlutinX11Sym

/-- Fields of the native `XErrorEvent` record read by the callback. -/
structure XErrorEvent where
  error_code : Nat
  request_code : Nat
  minor_code : Nat
deriving DecidableEq, Repr

/-- `winit_types::platform::XError`: the structured error the bridge builds. -/
structure XError where
  description : String
  error_code : Nat
  request_code : Nat
  minor_code : Nat
deriving DecidableEq, Repr

/-- The `winit_types::platform::OsError` variants this crate constructs. -/
inductive OsError where
  | xError : XError → OsError
  | xNotSupportedXOpenDisplayFailed : OsError
deriving DecidableEq, Repr

/-- `winit_types::error::Error` as produced by `make_oserror!` (the source
location the macro also records is dropped). -/
inductive Error where
  | osError : OsError → Error
deriving DecidableEq, Repr

/-- `x11_dl::error::OpenError`: a dynamic-load failure for a native library. -/
inductive OpenError where
  | failed : String → OpenError
deriving DecidableEq, Repr

/-- The Xlib symbols `lib.rs` calls, as an abstract native environment:
`xOpenDisplay` is the handle returned by `XOpenDisplay(null)` (0 models a
null pointer) and `xGetErrorText` the lossy-decoded description text for a
(display pointer, error code) pair. -/
structure XlibSyms where
  xOpenDisplay : Nat
  xGetErrorText : Nat → Nat → String

/-- Outcome of running a piece of the library: a value, an `Err`, or a Rust
panic (`Result::unwrap` on an `Err`, which is what `lsyms!` does). -/
inductive POutcome (α : Type) where
  | ok : α → POutcome α
  | error : Error → POutcome α
  | panicked : POutcome α
deriving DecidableEq, Repr

/-- The `Display` struct: the raw connection handle, the
`latest_error: Mutex<Option<Error>>` slot, and the `owned` flag. -/
structure Display where
  display : Nat
  latest_error : Option Error
  owned : Bool
deriving DecidableEq, Repr

/-- `Display::new`: `lsyms!(XLIB)` unwraps the XLIB load result, panicking on
a load failure; then `XInitThreads` and `XSetErrorHandler` (no modelled
state), then `XOpenDisplay(null)`.  A null handle yields
`Err(make_oserror!(OsError::XNotSupported(XOpenDisplayFailed)))`; otherwise
an owned `Display` with an empty error slot is returned. -/
def Display.new (xlib : Except OpenError XlibSyms) : POutcome Display :=
  match xlib with
  | .error _ => .panicked
  | .ok syms =>
    if syms.xOpenDisplay = 0 then
      .error (.osError .xNotSupportedXOpenDisplayFailed)
    else
      .ok { display := syms.xOpenDisplay, latest_error := none, owned := true }

/-- The one-time computation of the `X11_DISPLAY` singleton:
`Mutex::new(Display::new().map(Arc::new))`.  A panic inside `Display::new`
propagates; otherwise the mutex holds the `Result`. -/
def initSingleton (xlib : Except OpenError XlibSyms) :
    POutcome (Except Error Display) :=
  match Display.new xlib with
  | .panicked => .panicked
  | .error e => .ok (.error e)
  | .ok d => .ok (.ok d)

/-- Result of `Display::from_raw`: either `Arc::clone` of the singleton's
`Display` (the same heap object, hence the same `latest_error` slot), or a
freshly allocated `Arc` around a new `Display`. -/
inductive FromRawResult where
  | singletonRef : FromRawResult
  | fresh : Display → FromRawResult
deriving DecidableEq, Repr

/-- `Display::from_raw`, given the current contents of `X11_DISPLAY`.  If the
singleton holds an established connection whose handle equals `raw`, the
singleton `Arc` is cloned; otherwise a `warn!` is emitted and a fresh
non-owning wrapper with an empty error slot is allocated.  The second
component counts the `warn!` messages emitted. -/
def Display.from_raw (sing : Except Error Display) (raw : Nat) :
    FromRawResult × Nat :=
  match sing with
  | .ok d =>
    if d.display = raw then (.singletonRef, 0)
    else (.fresh { display := raw, latest_error := none, owned := false }, 1)
  | .error _ => (.fresh { display := raw, latest_error := none, owned := false }, 1)

/-- Dereference a `FromRawResult` against the current singleton contents: a
singleton reference reads the singleton's `Display` (shared slot), a fresh
reference reads its own `Display`. -/
def FromRawResult.deref : FromRawResult → Except Error Display → Option Display
  | .singletonRef, .ok d => some d
  | .singletonRef, .error _ => none
  | .fresh d, _ => some d

/-- `Display::check_errors`: `self.latest_error.lock().take()` — the pending
error, if any, is returned as `Err` and the slot is cleared; otherwise
`Ok(())`.  The second component is the `Display` after the call. -/
def Display.check_errors (d : Display) : Except Error Unit × Display :=
  match d.latest_error with
  | some e => (.error e, { d with latest_error := none })
  | none => (.ok (), d)

/-- `Display::ignore_error`: `*self.latest_error.lock() = None`. -/
def Display.ignore_error (d : Display) : Display :=
  { d with latest_error := none }

/-- `impl Drop for Display`, run when the last `Arc` reference is released:
if `owned`, unwrap `XLIB` via `lsyms!` (panicking on a load failure) and call
`XCloseDisplay(self.display)`; otherwise do nothing.  The result lists the
handles passed to native `XCloseDisplay` calls. -/
def Display.drop (xlib : Except OpenError XlibSyms) (d : Display) :
    POutcome (List Nat) :=
  if d.owned then
    match xlib with
    | .error _ => .panicked
    | .ok _ => .ok [d.display]
  else
    .ok []

/-- The error value `x_error_callback` constructs: the `XGetErrorText`
description for the callback's display pointer and the event's error code,
plus the three numeric codes copied verbatim from the event. -/
def bridgeError (syms : XlibSyms) (display_ptr : Nat) (event : XErrorEvent) :
    Error :=
  .osError (.xError
    { description := syms.xGetErrorText display_ptr event.error_code
      error_code := event.error_code
      request_code := event.request_code
      minor_code := event.minor_code })

/-- `x_error_callback`: `lsyms!(XLIB)` unwraps the XLIB load result
(panicking on a load failure), then locks `X11_DISPLAY`.  If it holds an
established connection, the error is formatted with `XGetErrorText`, wrapped
as an `XError`, and stored into that connection's `latest_error` slot — the
callback's `display_ptr` is used only for formatting, never compared against
the singleton's handle.  The callback then returns 0 (ignored natively). -/
def x_error_callback (xlib : Except OpenError XlibSyms)
    (sing : Except Error Display) (display_ptr : Nat) (event : XErrorEvent) :
    POutcome (Except Error Display × Int) :=
  match xlib with
  | .error _ => .panicked
  | .ok syms =>
    match sing with
    | .ok d =>
      .ok (.ok { d with latest_error := some (bridgeError syms display_ptr event) }, 0)
    | .error e => .ok (.error e, 0)

/-- C1 counterexample: with the singleton established at handle 5, a callback
invocation for display handle 7 (which differs from 5) still stores the
formatted error into the singleton's `latest_error` slot — the mismatched
error is not dropped, contradicting the claim. -/
theorem c1_counterexample :
    x_error_callback (.ok ⟨5, fun _ _ => "BadAccess"⟩)
        (.ok ⟨5, none, true⟩) 7 ⟨10, 42, 1⟩ =
      .ok (.ok ⟨5, some (.osError (.xError ⟨"BadAccess", 10, 42, 1⟩)), true⟩, 0) ∧
    (7 : Nat) ≠ 5 :=
  ⟨rfl, by decide⟩

/-- C1 (amended): whenever the singleton holds an established connection, the
callback stores the constructed error into that connection's `latest_error`
slot and returns 0, regardless of the callback's display handle — the code
performs no handle comparison and emits no warning in the callback. -/
theorem c1_callback_stores_unconditionally (syms : XlibSyms) (d : Display)
    (display_ptr : Nat) (event : XErrorEvent) :
    x_error_callback (.ok syms) (.ok d) display_ptr event =
      .ok (.ok { d with latest_error := some (bridgeError syms display_ptr event) }, 0) :=
  rfl

/-- C2 counterexample: when the XLIB load failed, `Display::new` panics (the
`lsyms!(XLIB)` unwrap) instead of returning an `Err` derived from the load
failure. -/
theorem c2_counterexample :
    Display.new (.error (.failed "libX11.so.6: cannot open shared object file")) =
      .panicked :=
  rfl

/-- C2 (amended): for every XLIB load failure, `Display::new` — and therefore
the one-time `X11_DISPLAY` singleton computation — panics rather than
returning an `Err`; the singleton is never populated in that state. -/
theorem c2_new_panics_on_load_failure (e : OpenError) :
    Display.new (.error e) = .panicked ∧ initSingleton (.error e) = .panicked :=
  ⟨rfl, rfl⟩

/-- C3 counterexample: invoked while the XLIB load failed, the callback
panics (the `lsyms!(XLIB)` unwrap) instead of skipping and returning. -/
theorem c3_counterexample :
    x_error_callback (.error (.failed "libX11.so.6 missing"))
        (.error (.osError .xNotSupportedXOpenDisplayFailed)) 3 ⟨9, 15, 0⟩ =
      .panicked :=
  rfl

/-- C3 (amended): for every invocation of the callback while the XLIB load
failed, the callback panics when resolving the core library handle; it never
reaches the singleton lookup or the store. -/
theorem c3_callback_panics_on_load_failure (e : OpenError)
    (sing : Except Error Display) (display_ptr : Nat) (event : XErrorEvent) :
    x_error_callback (.error e) sing display_ptr event = .panicked :=
  rfl

/-- C4: adopting the singleton's own handle returns `Arc::clone` of the
singleton without constructing a duplicate wrapper (and without warning);
because the reference denotes the same `Display` object, an error the bridge
later records into the singleton's slot is exactly what `check_errors`
returns when called through the adopted reference. -/
theorem c4_from_raw_matching_shares_slot (syms : XlibSyms) (d : Display)
    (raw display_ptr : Nat) (event : XErrorEvent) (h : d.display = raw) :
    Display.from_raw (.ok d) raw = (.singletonRef, 0) ∧
    x_error_callback (.ok syms) (.ok d) display_ptr event =
      .ok (.ok { d with latest_error := some (bridgeError syms display_ptr event) }, 0) ∧
    (FromRawResult.deref .singletonRef
        (.ok { d with latest_error := some (bridgeError syms display_ptr event) })).map
      (fun c => (Display.check_errors c).1) =
      some (.error (bridgeError syms display_ptr event)) := by
  refine ⟨?_, rfl, rfl⟩
  subst h
  simp [Display.from_raw]

/-- C4 witness: adopting handle 5 while the singleton's connection is at
handle 5, then bridging an error, makes the error visible through the
adopted reference. -/
theorem c4_witness :
    Display.from_raw (.ok ⟨5, none, true⟩) 5 = (.singletonRef, 0) ∧
    x_error_callback (.ok ⟨5, fun _ _ => "BadWindow"⟩) (.ok ⟨5, none, true⟩) 5 ⟨3, 1, 0⟩ =
      .ok (.ok ⟨5, some (.osError (.xError ⟨"BadWindow", 3, 1, 0⟩)), true⟩, 0) ∧
    (FromRawResult.deref .singletonRef
        (.ok ⟨5, some (.osError (.xError ⟨"BadWindow", 3, 1, 0⟩)), true⟩)).map
      (fun c => (Display.check_errors c).1) =
      some (.error (.osError (.xError ⟨"BadWindow", 3, 1, 0⟩))) :=
  c4_from_raw_matching_shares_slot ⟨5, fun _ _ => "BadWindow"⟩ ⟨5, none, true⟩ 5 5
    ⟨3, 1, 0⟩ rfl

/-- C5: one `check_errors` call returns the pending error as `Err` when the
slot is occupied and `Ok` when it is empty, and in both cases leaves the slot
empty; consequently an immediately following second call returns `Ok`. -/
theorem c5_check_errors_takes_and_clears (d : Display) :
    Display.check_errors d =
      ((match d.latest_error with
        | some e => Except.error e
        | none => Except.ok ()),
       { d with latest_error := none }) ∧
    (Display.check_errors (Display.check_errors d).2).1 = .ok () := by
  rcases d with ⟨dp, le, ow⟩
  cases le <;> exact ⟨rfl, rfl⟩

/-- C6: when the bridge fires twice before any `check_errors` call, the slot
holds only the second error (overwrite, not queue), and `check_errors` then
returns exactly that second error. -/
theorem c6_second_error_overwrites (syms : XlibSyms) (d : Display)
    (dp1 dp2 : Nat) (ev1 ev2 : XErrorEvent) :
    ∃ d1 d2 : Display,
      x_error_callback (.ok syms) (.ok d) dp1 ev1 = .ok (.ok d1, 0) ∧
      x_error_callback (.ok syms) (.ok d1) dp2 ev2 = .ok (.ok d2, 0) ∧
      d2.latest_error = some (bridgeError syms dp2 ev2) ∧
      (Display.check_errors d2).1 = .error (bridgeError syms dp2 ev2) :=
  ⟨_, _, rfl, rfl, rfl, rfl⟩

/-- C7: when the bridge fires while the singleton holds a matching
connection, the stored error carries the `XGetErrorText` description and the
event's `error_code`, `request_code` and `minor_code` verbatim, and the next
`check_errors` call returns a failure carrying exactly those four fields. -/
theorem c7_error_fields_verbatim (syms : XlibSyms) (d : Display)
    (display_ptr : Nat) (event : XErrorEvent) (_h : d.display = display_ptr) :
    ∃ d' : Display,
      x_error_callback (.ok syms) (.ok d) display_ptr event = .ok (.ok d', 0) ∧
      (Display.check_errors d').1 =
        .error (.osError (.xError
          { description := syms.xGetErrorText display_ptr event.error_code
            error_code := event.error_code
            request_code := event.request_code
            minor_code := event.minor_code })) :=
  ⟨_, rfl, rfl⟩

/-- C7 witness: error_code 9, request_code 15, minor_code 0 with description
text "BadDrawable" surface verbatim through `check_errors`. -/
theorem c7_witness :
    ∃ d' : Display,
      x_error_callback (.ok ⟨5, fun _ _ => "BadDrawable"⟩) (.ok ⟨5, none, true⟩)
          5 ⟨9, 15, 0⟩ =
        .ok (.ok d', 0) ∧
      (Display.check_errors d').1 =
        .error (.osError (.xError ⟨"BadDrawable", 9, 15, 0⟩)) :=
  c7_error_fields_verbatim ⟨5, fun _ _ => "BadDrawable"⟩ ⟨5, none, true⟩ 5
    ⟨9, 15, 0⟩ rfl

/-- C8: adopting a handle different from the singleton's yields a fresh
non-owning wrapper and one diagnostic warning; dropping any non-owning
`Display` performs no native close call (for every XLIB state), while
dropping an owning `Display` performs the native close call exactly once. -/
theorem c8_foreign_adopt_and_drop (syms : XlibSyms) (d : Display) (raw : Nat)
    (h : d.display ≠ raw) :
    Display.from_raw (.ok d) raw =
      (.fresh { display := raw, latest_error := none, owned := false }, 1) ∧
    (∀ (xlib : Except OpenError XlibSyms) (handle : Nat) (le : Option Error),
      Display.drop xlib { display := handle, latest_error := le, owned := false } =
        .ok []) ∧
    (∀ (handle : Nat) (le : Option Error),
      Display.drop (.ok syms) { display := handle, latest_error := le, owned := true } =
        .ok [handle]) := by
  refine ⟨?_, fun xlib handle le => rfl, fun handle le => rfl⟩
  simp [Display.from_raw, h]

/-- C8 witness: adopting handle 7 while the singleton's connection is at
handle 5 yields a fresh non-owning wrapper with one warning. -/
theorem c8_witness :
    Display.from_raw (.ok ⟨5, none, true⟩) 7 =
      (.fresh ⟨7, none, false⟩, 1) ∧
    (∀ (xlib : Except OpenError XlibSyms) (handle : Nat) (le : Option Error),
      Display.drop xlib { display := handle, latest_error := le, owned := false } =
        .ok []) ∧
    (∀ (handle : Nat) (le : Option Error),
      Display.drop (.ok ⟨5, fun _ _ => "t"⟩)
          { display := handle, latest_error := le, owned := true } =
        .ok [handle]) :=
  c8_foreign_adopt_and_drop ⟨5, fun _ _ => "t"⟩ ⟨5, none, true⟩ 7 (by decide)

/-- C9: `ignore_error` followed by `check_errors` yields `Ok` regardless of
what error, if any, was pending before the `ignore_error` call. -/
theorem c9_ignore_then_check (d : Display) :
    (Display.check_errors (Display.ignore_error d)).1 = .ok () :=
  rfl

/-- C10: when the singleton holds an establishment failure, `from_raw`
applied to any raw handle builds a fresh non-owning wrapper with an empty
error slot (never a singleton reference) and emits a warning; `check_errors`
on that wrapper immediately returns `Ok`. -/
theorem c10_from_raw_on_failed_singleton (e : Error) (raw : Nat) :
    Display.from_raw (.error e) raw =
      (.fresh { display := raw, latest_error := none, owned := false }, 1) ∧
    (Display.check_errors { display := raw, latest_error := none, owned := false }).1 =
      .ok () :=
  ⟨rfl, rfl⟩

end GlutinX11Sym
